import Mathlib

/-!
Shallow embedding of the Adafruit MPU6050 driver
(src/Adafruit_MPU6050.cpp) and verification of its specification.

Modelling conventions:
* Device register bytes are `Nat` values (< 256 where it matters); the
  register file of the chip is a function `Nat → Nat` from register
  address to byte.
* The C++ `float` arithmetic of the driver is modelled over `ℚ`
  (exact rational arithmetic); the divisions by the power-of-two accel
  divisors are exact in IEEE single precision as well, the remaining
  formulas are taken as the ideal real-valued formulas the source writes.
* The bus transport (Adafruit BusIO, an external collaborator per the
  spec) is modelled by read oracles; the blocking reset poll is modelled
  with explicit fuel, `none` meaning the loop is still running after
  `fuel` iterations.
-/

namespace MPU6050

/-- Chip device-ID constant. Modelled from the spec: the repository header
declaring the chip constants is not under src/; the spec (§4.1 step 2 and §6)
names a fixed identification register compared against the chip's known
device-ID constant. The concrete byte values are irrelevant to the claims;
they only serve as distinct register names. -/
def MPU6050_DEVICE_ID : Nat := 0x68

/-- WHO_AM_I identification register address (modelled from the spec, §6). -/
def MPU6050_WHO_AM_I : Nat := 0x75

/-- Power-management register address (modelled from the spec, §6). -/
def MPU6050_PWR_MGMT_1 : Nat := 0x6B

/-- Sample-rate-divider register address (modelled from the spec, §6). -/
def MPU6050_SMPLRT_DIV : Nat := 0x19

/-- Low-pass-filter config register address (modelled from the spec, §6). -/
def MPU6050_CONFIG : Nat := 0x1A

/-- Gyro full-scale register address (modelled from the spec, §6). -/
def MPU6050_GYRO_CONFIG : Nat := 0x1B

/-- Accelerometer config register address (modelled from the spec, §6). -/
def MPU6050_ACCEL_CONFIG : Nat := 0x1C

/-- Accelerometer output base register address (modelled from the spec, §6). -/
def MPU6050_ACCEL_OUT : Nat := 0x3B

/-- Range enum value for ±2g. Modelled from the spec: the header declaring
`mpu6050_range_t` is not under src/; the spec (§3) lists the enumerated
values stored in the 2-bit register field, in the chip's order. -/
def MPU6050_RANGE_2_G : Nat := 0

/-- Range enum value for ±4g (modelled from the spec, §3). -/
def MPU6050_RANGE_4_G : Nat := 1

/-- Range enum value for ±8g (modelled from the spec, §3). -/
def MPU6050_RANGE_8_G : Nat := 2

/-- Range enum value for ±16g (modelled from the spec, §3). -/
def MPU6050_RANGE_16_G : Nat := 3

/-- Standard-gravity constant 9.80665 m/s² used by `getEvent`
(from the Adafruit unified sensor framework, an external collaborator). -/
def SENSORS_GRAVITY_STANDARD : ℚ := 980665 / 100000

/-- Read of an `Adafruit_BusIO_RegisterBits` window of width `bits` at bit
offset `shift` from a register byte: shift down, then mask to the window.
Semantics of the external BusIO transport named by the spec (§6). -/
def regBitsRead (bits shift regval : Nat) : Nat :=
  (regval >>> shift) &&& ((1 <<< bits) - 1)

/-- Write of an `Adafruit_BusIO_RegisterBits` window: the data is masked to
the window width, the window bits of the old byte are cleared, and the data
is or-ed in at the offset. All other bits are left as read.
Semantics of the external BusIO transport named by the spec (§6). -/
def regBitsWrite (bits shift data regval : Nat) : Nat :=
  let mask := (1 <<< bits) - 1
  let data := data &&& mask
  let wmask := mask <<< shift
  (regval ^^^ (regval &&& wmask)) ||| (data <<< shift)

/-- Driver instance state: the three sensor ids, the seven raw 16-bit
fields, and the seven cached scaled values, exactly the data members the
driver mutates in src/Adafruit_MPU6050.cpp. -/
structure MPUState where
  sensorid_accel : Int
  sensorid_gyro : Int
  sensorid_temp : Int
  rawAccX : Int
  rawAccY : Int
  rawAccZ : Int
  rawTemp : Int
  rawGyroX : Int
  rawGyroY : Int
  rawGyroZ : Int
  accX : ℚ
  accY : ℚ
  accZ : ℚ
  temperature : ℚ
  gyroX : ℚ
  gyroY : ℚ
  gyroZ : ℚ
  deriving DecidableEq, Repr

/-- Zero-initialized driver state. Modelled from the spec: the header with
the member declarations is not under src/; the spec (§8) fixes the
before-first-read contents as the zero-initialized scaled sample. -/
def initState : MPUState :=
  { sensorid_accel := 0, sensorid_gyro := 0, sensorid_temp := 0,
    rawAccX := 0, rawAccY := 0, rawAccZ := 0, rawTemp := 0,
    rawGyroX := 0, rawGyroY := 0, rawGyroZ := 0,
    accX := 0, accY := 0, accZ := 0, temperature := 0,
    gyroX := 0, gyroY := 0, gyroZ := 0 }

/-- `Adafruit_MPU6050::getAccelerometerRange` (src lines 113-120): read the
width-2, offset-3 bit window of the ACCEL_CONFIG register byte. -/
def getAccelerometerRange (regs : Nat → Nat) : Nat :=
  regBitsRead 2 3 (regs MPU6050_ACCEL_CONFIG)

/-- `Adafruit_MPU6050::setAccelerometerRange` (src lines 129-136): write the
width-2, offset-3 bit window of the ACCEL_CONFIG register byte, leaving the
rest of the register file untouched. -/
def setAccelerometerRange (new_range : Nat) (regs : Nat → Nat) : Nat → Nat :=
  fun a =>
    if a = MPU6050_ACCEL_CONFIG then
      regBitsWrite 2 3 new_range (regs MPU6050_ACCEL_CONFIG)
    else regs a

/-- Assignment of a 16-bit big-endian register pair to an `int16_t` member:
the value is reduced mod 2^16 and reinterpreted as a signed 16-bit value. -/
def toInt16 (n : Nat) : Int :=
  if n % 65536 < 32768 then ((n % 65536 : Nat) : Int)
  else ((n % 65536 : Nat) : Int) - 65536

/-- The scale chosen by the if-chain in `Adafruit_MPU6050::read`
(src lines 157-165): start from 1, then test each range constant in the
source's order. -/
def accelScale (range : Nat) : ℚ :=
  let scale : ℚ := 1
  let scale := if range = MPU6050_RANGE_16_G then 2048 else scale
  let scale := if range = MPU6050_RANGE_8_G then 4096 else scale
  let scale := if range = MPU6050_RANGE_4_G then 8192 else scale
  let scale := if range = MPU6050_RANGE_2_G then 16384 else scale
  scale

/-- `Adafruit_MPU6050::read` (src lines 138-183): decode the 14-byte burst
buffer big-endian into the seven raw fields, read back the accelerometer
range, and cache the scaled values. `buffer` is the byte buffer returned by
the burst read at MPU6050_ACCEL_OUT; `regs` is the chip register file the
range read-back sees. -/
def read (buffer : Fin 14 → Nat) (regs : Nat → Nat) (s : MPUState) : MPUState :=
  let rawAccX := toInt16 ((buffer 0) <<< 8 ||| buffer 1)
  let rawAccY := toInt16 ((buffer 2) <<< 8 ||| buffer 3)
  let rawAccZ := toInt16 ((buffer 4) <<< 8 ||| buffer 5)
  let rawTemp := toInt16 ((buffer 6) <<< 8 ||| buffer 7)
  let rawGyroX := toInt16 ((buffer 8) <<< 8 ||| buffer 9)
  let rawGyroY := toInt16 ((buffer 10) <<< 8 ||| buffer 11)
  let rawGyroZ := toInt16 ((buffer 12) <<< 8 ||| buffer 13)
  let range := getAccelerometerRange regs
  let scale := accelScale range
  { s with
    rawAccX := rawAccX, rawAccY := rawAccY, rawAccZ := rawAccZ,
    rawTemp := rawTemp,
    rawGyroX := rawGyroX, rawGyroY := rawGyroY, rawGyroZ := rawGyroZ,
    accX := (rawAccX : ℚ) / scale,
    accY := (rawAccY : ℚ) / scale,
    accZ := (rawAccZ : ℚ) / scale,
    temperature := ((rawTemp : ℚ) + 12412) / 340,
    gyroX := (rawGyroX : ℚ) / (655 / 10),
    gyroY := (rawGyroY : ℚ) / (655 / 10),
    gyroZ := (rawGyroZ : ℚ) / (655 / 10) }

/-- Vector-payload event record (acceleration or gyro channel) as filled in
by `getEvent`: sensor id and the three payload components. -/
structure SensorsEventVec where
  sensor_id : Int
  x : ℚ
  y : ℚ
  z : ℚ
  deriving DecidableEq, Repr

/-- Scalar temperature event record as filled in by `getEvent`. -/
structure SensorsEventTemp where
  sensor_id : Int
  temperature : ℚ
  deriving DecidableEq, Repr

/-- `Adafruit_MPU6050::getEvent` (src lines 232-267): fills the three event
records purely from the cached state (the `read()` call in the source is
commented out, so the function takes no transport) and returns `true`. -/
def getEvent (s : MPUState) : Bool × SensorsEventVec × SensorsEventVec × SensorsEventTemp :=
  (true,
   { sensor_id := s.sensorid_accel,
     x := s.accX * SENSORS_GRAVITY_STANDARD,
     y := s.accY * SENSORS_GRAVITY_STANDARD,
     z := s.accZ * SENSORS_GRAVITY_STANDARD },
   { sensor_id := s.sensorid_gyro,
     x := s.gyroX, y := s.gyroY, z := s.gyroZ },
   { sensor_id := s.sensorid_temp, temperature := s.temperature })

/-- Bus transport as seen by `begin` and `_init`: whether the transport
opens, the byte the WHO_AM_I read returns, and the sequence of bytes
successive reads of PWR_MGMT_1 return after the reset write (`pwrReads k`
is the k-th read of the polling loop). -/
structure Transport where
  beginOk : Bool
  whoAmI : Nat
  pwrReads : Nat → Nat

/-- The reset-confirmation busy-wait loop of `_init` (src lines 81-83),
with explicit fuel: `none` means the loop has not exited within `fuel`
reads, `some n` means the loop exited on the n-th read. -/
def pollLoop (reads : Nat → Nat) : Nat → Option Nat
  | 0 => none
  | fuel + 1 =>
      if reads 0 = 0b01000000 then some 0
      else (pollLoop (fun k => reads (k + 1)) fuel).map (fun m => m + 1)

/-- `Adafruit_MPU6050::_init` (src lines 64-105): check WHO_AM_I against the
device id (returning `false` on mismatch, before touching the sensor ids),
store the three derived sensor ids, write the reset bit and poll PWR_MGMT_1
for the post-reset sentinel, then write the default configuration and return
`true`. `none` means the poll is still spinning after `fuel` reads. -/
def _init (t : Transport) (sensorID : Int) (fuel : Nat) (s : MPUState) :
    Option (Bool × MPUState) :=
  if t.whoAmI ≠ MPU6050_DEVICE_ID then some (false, s)
  else
    let s := { s with
      sensorid_accel := sensorID,
      sensorid_gyro := sensorID + 1,
      sensorid_temp := sensorID + 2 }
    match pollLoop t.pwrReads fuel with
    | none => none
    | some _ => some (true, s)

/-- `Adafruit_MPU6050::begin` (src lines 53-62): open the transport,
returning `false` if that fails, then run `_init`. -/
def begin (t : Transport) (sensorID : Int) (fuel : Nat) (s : MPUState) :
    Option (Bool × MPUState) :=
  if t.beginOk = false then some (false, s)
  else _init t sensorID fuel s

/-- A concrete register file used by witnesses: every register byte reads
0b10100101, a value with bits set on both sides of the range window. -/
def regsW : Nat → Nat := fun _ => 0b10100101

/-- A transport on which initialization succeeds at once: it opens, reports
the right device id, and PWR_MGMT_1 reads back the post-reset sentinel on
the first poll. Used by witnesses. -/
def tGood : Transport := ⟨true, 0x68, fun _ => 0b01000000⟩

/-- Sensor ids derived from the base id, as stored by `_init`
(src lines 73-75). -/
def idsSet (b : Int) (s : MPUState) : MPUState :=
  { s with
    sensorid_accel := b,
    sensorid_gyro := b + 1,
    sensorid_temp := b + 2 }

lemma pollLoop_sentinel : ∀ (fuel : Nat) (reads : Nat → Nat) (n : Nat),
    pollLoop reads fuel = some n → reads n = 0b01000000 := by
  intro fuel
  induction fuel with
  | zero => intro reads n h; simp [pollLoop] at h
  | succ f ih =>
      intro reads n h
      rw [pollLoop] at h
      by_cases h0 : reads 0 = 0b01000000
      · rw [if_pos h0] at h
        injection h with h
        subst h
        exact h0
      · rw [if_neg h0] at h
        obtain ⟨m, hm, hmn⟩ := Option.map_eq_some'.mp h
        subst hmn
        exact ih (fun k => reads (k + 1)) m hm

lemma pollLoop_stuck : ∀ (fuel : Nat) (reads : Nat → Nat),
    (∀ k, reads k ≠ 0b01000000) → pollLoop reads fuel = none := by
  intro fuel
  induction fuel with
  | zero => intro reads _; rfl
  | succ f ih =>
      intro reads hnever
      rw [pollLoop]
      simp only [hnever 0, if_neg]
      rw [ih (fun k => reads (k + 1)) (fun k => hnever (k + 1))]
      rfl

set_option maxRecDepth 4000 in
lemma roundTripAux : ∀ b < 256, ∀ v < 4,
    regBitsRead 2 3 (regBitsWrite 2 3 v b) = v := by decide

set_option maxRecDepth 4000 in
lemma frameAux : ∀ b < 256, ∀ v < 4,
    regBitsWrite 2 3 v b % 8 = b % 8 ∧ regBitsWrite 2 3 v b >>> 5 = b >>> 5 := by
  decide

/-- C1: during `read`, the four valid range settings read back from the
chip select the divisors 16384 (±2g), 8192 (±4g), 4096 (±8g) and
2048 (±16g), the read-back range is always one of the four, and each
scaled accel value is the raw 16-bit value divided by that divisor. -/
theorem readAccelDivisorTable (buffer : Fin 14 → Nat) (regs : Nat → Nat) (s : MPUState) :
    (accelScale MPU6050_RANGE_2_G = 16384 ∧ accelScale MPU6050_RANGE_4_G = 8192 ∧
     accelScale MPU6050_RANGE_8_G = 4096 ∧ accelScale MPU6050_RANGE_16_G = 2048) ∧
    getAccelerometerRange regs < 4 ∧
    (read buffer regs s).accX =
      ((read buffer regs s).rawAccX : ℚ) / accelScale (getAccelerometerRange regs) ∧
    (read buffer regs s).accY =
      ((read buffer regs s).rawAccY : ℚ) / accelScale (getAccelerometerRange regs) ∧
    (read buffer regs s).accZ =
      ((read buffer regs s).rawAccZ : ℚ) / accelScale (getAccelerometerRange regs) := by
  refine ⟨by decide, ?_, rfl, rfl, rfl⟩
  have h : (regs MPU6050_ACCEL_CONFIG >>> 3) &&& ((1 <<< 2) - 1) ≤ (1 <<< 2) - 1 :=
    Nat.and_le_right
  have h3 : (1 <<< 2) - 1 = 3 := by decide
  unfold getAccelerometerRange regBitsRead
  omega

/-- C2: for every valid range value r (< 4), writing it with
`setAccelerometerRange` and reading it back with `getAccelerometerRange`
returns r, whatever byte the accel-config register held before. -/
theorem setGetAccelRangeRoundTrip (regs : Nat → Nat) (r : Nat)
    (hr : r < 4) (hb : regs MPU6050_ACCEL_CONFIG < 256) :
    getAccelerometerRange (setAccelerometerRange r regs) = r := by
  have := roundTripAux (regs MPU6050_ACCEL_CONFIG) hb r hr
  simpa [getAccelerometerRange, setAccelerometerRange] using this

/-- Witness for C2 at r = 3 on the concrete register file regsW. -/
theorem setGetAccelRangeRoundTrip_witness :
    getAccelerometerRange (setAccelerometerRange 3 regsW) = 3 :=
  setGetAccelRangeRoundTrip regsW 3 (by decide) (by decide)

/-- C3: when the WHO_AM_I read differs from the device-ID constant,
`begin` returns failure (`some (false, s)`, a defined value, so no crash)
whatever the fuel; and `begin` returns success only if the transport
opened and the identity check passed. -/
theorem beginIdentityCheck (t : Transport) (sensorID : Int) (fuel : Nat) (s : MPUState) :
    (t.whoAmI ≠ MPU6050_DEVICE_ID → begin t sensorID fuel s = some (false, s)) ∧
    (∀ r, begin t sensorID fuel s = some (true, r) →
      t.beginOk = true ∧ t.whoAmI = MPU6050_DEVICE_ID) := by
  constructor
  · intro hne
    unfold begin _init
    by_cases hb : t.beginOk = false
    · simp [hb]
    · simp [hb, hne]
  · intro r h
    unfold begin _init at h
    by_cases hb : t.beginOk = false
    · simp [hb] at h
    · by_cases hid : t.whoAmI = MPU6050_DEVICE_ID
      · exact ⟨by simpa using hb, hid⟩
      · simp [hb, hid] at h

/-- Witness for C3: a transport reporting WHO_AM_I = 0 fails `begin`, and
on the good transport success implies the transport opened. -/
theorem beginIdentityCheck_witness :
    begin ⟨true, 0, fun _ => 0⟩ 7 3 initState = some (false, initState) ∧
    tGood.beginOk = true :=
  ⟨(beginIdentityCheck ⟨true, 0, fun _ => 0⟩ 7 3 initState).1 (by decide),
   ((beginIdentityCheck tGood 7 3 initState).2 (idsSet 7 initState) rfl).1⟩

/-- C4: `getEvent` takes no transport (the bus read in the source is
commented out); on the zero-initialized state it reports zero for all
three acceleration components, all three gyro components, and the
temperature. -/
theorem getEventFreshZero :
    (getEvent initState).2.1.x = 0 ∧ (getEvent initState).2.1.y = 0 ∧
    (getEvent initState).2.1.z = 0 ∧
    (getEvent initState).2.2.1.x = 0 ∧ (getEvent initState).2.2.1.y = 0 ∧
    (getEvent initState).2.2.1.z = 0 ∧
    (getEvent initState).2.2.2.temperature = 0 := by
  simp [getEvent, initState]

/-- C5: the reset-confirmation poll exits only on a read returning the
sentinel 0b01000000, and on a transport whose PWR_MGMT_1 reads never
return the sentinel, `_init` (past the identity check) is still running
after every fuel bound: it never terminates. -/
theorem resetPollNoTimeout (t : Transport) (sensorID : Int) (s : MPUState) (fuel : Nat) :
    (∀ n, pollLoop t.pwrReads fuel = some n → t.pwrReads n = 0b01000000) ∧
    (t.whoAmI = MPU6050_DEVICE_ID → (∀ k, t.pwrReads k ≠ 0b01000000) →
      _init t sensorID fuel s = none) := by
  constructor
  · intro n h
    exact pollLoop_sentinel fuel t.pwrReads n h
  · intro hid hnever
    unfold _init
    simp only [hid, ne_eq, not_true_eq_false, if_neg, not_false_eq_true]
    rw [pollLoop_stuck fuel t.pwrReads hnever]

/-- Witness for C5: on a transport always reading 0 from PWR_MGMT_1,
`_init` has not returned after 50 polls. -/
theorem resetPollNoTimeout_witness :
    _init ⟨true, 0x68, fun _ => 0⟩ 0 50 initState = none :=
  (resetPollNoTimeout ⟨true, 0x68, fun _ => 0⟩ 0 initState 50).2 rfl
    (fun _ => (by decide : (0 : Nat) ≠ 64))

/-- C6: a successful `begin` with base id b stores sensor ids b, b+1, b+2
for accel, gyro and temperature. -/
theorem initSensorIds (t : Transport) (b : Int) (fuel : Nat) (s r : MPUState)
    (h : begin t b fuel s = some (true, r)) :
    r.sensorid_accel = b ∧ r.sensorid_gyro = b + 1 ∧ r.sensorid_temp = b + 2 := by
  unfold begin _init at h
  by_cases hb : t.beginOk = false
  · rw [if_pos hb] at h
    simp at h
  · rw [if_neg hb] at h
    by_cases hid : t.whoAmI = MPU6050_DEVICE_ID
    · rw [if_neg (not_not_intro hid)] at h
      cases hp : pollLoop t.pwrReads fuel with
      | none =>
          rw [hp] at h
          simp at h
      | some m =>
          rw [hp] at h
          simp only [Option.some.injEq, Prod.mk.injEq, true_and] at h
          rw [← h]
          exact ⟨rfl, rfl, rfl⟩
    · rw [if_pos hid] at h
      simp at h

/-- Witness for C6 at base id 10: the stored ids are 10, 11, 12. -/
theorem initSensorIds_witness :
    (idsSet 10 initState).sensorid_accel = 10 ∧
    (idsSet 10 initState).sensorid_gyro = 10 + 1 ∧
    (idsSet 10 initState).sensorid_temp = 10 + 2 :=
  initSensorIds tGood 10 3 initState (idsSet 10 initState) rfl

/-- C7: `read` caches temperature = (rawTemp + 12412) / 340; on a burst
buffer encoding raw temperature -12412 it caches 0 °C, and on the all-zero
buffer it caches 12412/340 (≈ 36.5 °C). -/
theorem readTemperatureFormula (buffer : Fin 14 → Nat) (regs : Nat → Nat) (s : MPUState) :
    (read buffer regs s).temperature =
      (((read buffer regs s).rawTemp : ℚ) + 12412) / 340 ∧
    (read (fun i => if i.val = 6 then 207 else if i.val = 7 then 132 else 0)
      regsW initState).temperature = 0 ∧
    (read (fun _ => 0) regsW initState).temperature = 12412 / 340 := by
  refine ⟨rfl, ?_, ?_⟩
  · have h7 : toInt16 ((207 : Nat) <<< 8 ||| 132) = -12412 := by decide
    show ((toInt16 ((207 : Nat) <<< 8 ||| 132) : ℚ) + 12412) / 340 = 0
    rw [h7]
    norm_num
  · have h0 : toInt16 ((0 : Nat) <<< 8 ||| 0) = 0 := by decide
    show ((toInt16 ((0 : Nat) <<< 8 ||| 0) : ℚ) + 12412) / 340 = 12412 / 340
    rw [h0]
    norm_num

/-- C8: `getEvent` fills the acceleration event with the cached accel
values times the standard-gravity constant, the gyro event with the cached
gyro values unchanged, and the temperature event with the cached
temperature, each tagged with the matching stored sensor id. -/
theorem getEventCachedConversion (s : MPUState) :
    (getEvent s).2.1 =
      { sensor_id := s.sensorid_accel,
        x := s.accX * SENSORS_GRAVITY_STANDARD,
        y := s.accY * SENSORS_GRAVITY_STANDARD,
        z := s.accZ * SENSORS_GRAVITY_STANDARD } ∧
    (getEvent s).2.2.1 =
      { sensor_id := s.sensorid_gyro, x := s.gyroX, y := s.gyroY, z := s.gyroZ } ∧
    (getEvent s).2.2.2 =
      { sensor_id := s.sensorid_temp, temperature := s.temperature } :=
  ⟨rfl, rfl, rfl⟩

/-- C9: `setAccelerometerRange` leaves every register other than
ACCEL_CONFIG untouched, and within the ACCEL_CONFIG byte it changes only
the 2-bit window at offset 3: bits 0-2 (the byte mod 8) and bits 5-7 (the
byte shifted right by 5) are unchanged for every prior byte and every
valid range. -/
theorem setAccelRangeFrame (regs : Nat → Nat) (r : Nat) (a : Nat)
    (hr : r < 4) (hb : regs MPU6050_ACCEL_CONFIG < 256) :
    (a ≠ MPU6050_ACCEL_CONFIG → setAccelerometerRange r regs a = regs a) ∧
    setAccelerometerRange r regs MPU6050_ACCEL_CONFIG % 8 =
      regs MPU6050_ACCEL_CONFIG % 8 ∧
    setAccelerometerRange r regs MPU6050_ACCEL_CONFIG >>> 5 =
      regs MPU6050_ACCEL_CONFIG >>> 5 := by
  refine ⟨fun ha => ?_, ?_, ?_⟩
  · simp [setAccelerometerRange, ha]
  · have := (frameAux (regs MPU6050_ACCEL_CONFIG) hb r hr).1
    simpa [setAccelerometerRange] using this
  · have := (frameAux (regs MPU6050_ACCEL_CONFIG) hb r hr).2
    simpa [setAccelerometerRange] using this

/-- Witness for C9 at range 2 on the concrete register file regsW: the
gyro-config register and the out-of-window bits of ACCEL_CONFIG are
unchanged. -/
theorem setAccelRangeFrame_witness :
    setAccelerometerRange 2 regsW 0x1B = regsW 0x1B ∧
    setAccelerometerRange 2 regsW MPU6050_ACCEL_CONFIG % 8 =
      regsW MPU6050_ACCEL_CONFIG % 8 ∧
    setAccelerometerRange 2 regsW MPU6050_ACCEL_CONFIG >>> 5 =
      regsW MPU6050_ACCEL_CONFIG >>> 5 :=
  ⟨(setAccelRangeFrame regsW 2 0x1B (by decide) (by decide)).1 (by decide),
   (setAccelRangeFrame regsW 2 0x1B (by decide) (by decide)).2.1,
   (setAccelRangeFrame regsW 2 0x1B (by decide) (by decide)).2.2⟩

/-- C10: `getEvent` returns true on every driver state; it cannot report
failure through its return value. -/
theorem getEventAlwaysTrue (s : MPUState) : (getEvent s).1 = true := rfl

end MPU6050
